import Mathlib

/-! Verification of the Design Snippets relay broker and client driver.

Shallow embedding of the two source files of the repository:

* the relay server (socket.io broker on port 5234): role negotiation via the
  `getType` acknowledgement, the single `snippetSocket` worker slot, the
  `action` relay handler and the `disconnect` handler;
* the client driver `dsNodeDriver.js`: the module-level `socket` binding, the
  `exec` primitive (promisified `action` emit with a try/catch), and the typed
  convenience methods with their `typeof name !== 'string'` checks.

The broker is modelled as a step function on an explicit state, driven by the
events its socket handlers react to; everything each handler emits (messages
to sockets, acknowledgement invocations, log lines) is collected in a list of
outputs so that delivery claims can be stated as properties of traces.
-/

namespace DesignSnippets

/-- JS primitive values carried in call payloads and acknowledgements.
`pnull`/`pundef` model `null`/`undefined`; payload objects are association
lists of these. Values the driver actually sends in the claims at issue are
flat objects of primitives. -/
inductive Prim where
  | pstr (s : String)
  | pnum (n : Int)
  | pbool (b : Bool)
  | pnull
  | pundef
deriving DecidableEq, Repr

/-- An `args` object of the `action` envelope: field-name/value pairs. -/
abbrev Payload := List (String × Prim)

/-! Broker (relay server, source file `part_000`). -/

/-- Broker state: `snippetSocket` is the module variable `var snippetSocket`
holding the worker socket (by id) or nothing; `pending` models the live
acknowledgement closures created by `snippetSocket.emit(data.fn, data.args, cb)`
— each entry pairs the broker-to-worker acknowledgement id with the client
callback `clientCB` it would invoke; `nextAck` is the transport's fresh
acknowledgement-id counter on the broker-to-worker link. -/
structure BrokerState where
  snippetSocket : Option Nat
  pending : List (Nat × Nat)
  nextAck : Nat
deriving DecidableEq, Repr

/-- The broker state at process start: no worker, no pending calls. -/
def brokerInit : BrokerState := ⟨none, [], 0⟩

/-- Events the broker's handlers react to. `typeAnswer` is the arrival of the
`getType` acknowledgement from socket `sid`; `action` is a client call
carrying the envelope fields `fn`/`args` and the client's acknowledgement
callback (identified by an opaque token `cb`); `workerAck` is the worker
invoking the acknowledgement of a relayed call. -/
inductive BEvent where
  | connect (sid : Nat)
  | typeAnswer (sid : Nat) (ty : String)
  | disconnect (sid : Nat)
  | action (sid : Nat) (fn : String) (args : Payload) (cb : Nat)
  | workerAck (ackId : Nat) (result : Prim)
deriving DecidableEq, Repr

/-- Observable outputs of one handler run. `emitGetType` is the role query to
a new socket; `toWorker` is `snippetSocket.emit(data.fn, data.args, cb)` — note
its event name is the envelope's `fn`, with a fresh acknowledgement id;
`callClientCb` is an invocation of a client's acknowledgement callback;
`presence` would be a broadcast presence event to clients (the handlers in the
source never produce one). -/
inductive Output where
  | emitGetType (sid : Nat)
  | toWorker (wid : Nat) (event : String) (args : Payload) (ackId : Nat)
  | callClientCb (cb : Nat) (result : Prim)
  | presence (event : String)
  | logInfo (m : String)
  | logWarn (m : String)
  | logError (m : String)
deriving DecidableEq, Repr

/-- One broker step: the body of the matching socket handler in the source.
* `connect`: log, issue the `getType` role query.
* `typeAnswer`: the `getType` callback — only the literal `"server"` does
  anything; it registers the socket as worker when the slot is empty and logs
  an error otherwise.
* `disconnect`: clear the worker slot if the disconnected socket was the
  worker (log a warning), then log the disconnect; nothing touches `pending`.
* `action`: if a worker is registered, relay `fn`/`args` to it with a fresh
  acknowledgement and remember which client callback that acknowledgement
  feeds; otherwise log a warning and drop the call.
* `workerAck`: the relay acknowledgement fires — deliver the result to the
  matching client callback and discard the entry. -/
def step (s : BrokerState) : BEvent → BrokerState × List Output
  | .connect sid =>
      (s, [.logInfo "connection", .emitGetType sid])
  | .typeAnswer sid ty =>
      if ty = "server" then
        match s.snippetSocket with
        | none =>
            ({ s with snippetSocket := some sid },
             [.logInfo "Design Snippets Server found"])
        | some _ =>
            (s, [.logError "Server already connected. Disconnect other server first"])
      else
        (s, [])
  | .disconnect sid =>
      if s.snippetSocket = some sid then
        ({ s with snippetSocket := none },
         [.logWarn "Snippet server disconnected", .logInfo "disconnect"])
      else
        (s, [.logInfo "disconnect"])
  | .action _ fn args cb =>
      match s.snippetSocket with
      | some w =>
          ({ s with pending := s.pending ++ [(s.nextAck, cb)],
                    nextAck := s.nextAck + 1 },
           [.logInfo "Relaying action", .toWorker w fn args s.nextAck])
      | none =>
          (s, [.logWarn "Unable to process action. No snippet server connected"])
  | .workerAck ackId result =>
      match s.pending.find? (fun p => p.1 = ackId) with
      | some p =>
          ({ s with pending := s.pending.filter (fun q => q.1 ≠ ackId) },
           [.logInfo "Relayed action returned", .callClientCb p.2 result])
      | none =>
          (s, [])

/-- Run the broker over a list of events, collecting all outputs in order. -/
def run (s : BrokerState) : List BEvent → BrokerState × List Output
  | [] => (s, [])
  | e :: es =>
      let r := step s e
      let r2 := run r.1 es
      (r2.1, r.2 ++ r2.2)

/-- Is this output a delivery to a client's acknowledgement callback? -/
def isClientDelivery : Output → Bool
  | .callClientCb _ _ => true
  | _ => false

/-- Is this output a presence broadcast? -/
def isPresence : Output → Bool
  | .presence _ => true
  | _ => false

/-- The connections currently holding the worker role, as a list. -/
def workerHolders (s : BrokerState) : List Nat :=
  match s.snippetSocket with
  | none => []
  | some w => [w]

/-! Client driver (source file `dsNodeDriver.js`). -/

/-- A message emitted by the driver on its transport: an event name and, for
`action` envelopes, the `fn`/`args` fields of the payload `{ fn, args }`. -/
structure SentMsg where
  event : String
  fn : String
  args : Payload
deriving DecidableEq, Repr

/-- The transport as seen by one `exec` call: given the envelope's `fn` and
`args`, the promisified `socket.emitAsync('action', ...)` either fulfils with
an acknowledgement value or rejects with an error message. -/
def Transport : Type := String → Payload → Except String Prim

deriving instance DecidableEq for Except

/-- Outcome of one driver method call: the messages it sent on the transport,
and either the value its promise resolves with or (`Except.error`) the message
of the exception it throws before sending. -/
structure MethodOutcome where
  sent : List SentMsg
  result : Except String Prim
deriving DecidableEq, Repr

/-- JS `typeof name === 'string'`, the only check the validating convenience
methods perform on `name`. -/
def jsTypeofIsString : Prim → Bool
  | .pstr _ => true
  | _ => false

/-- Model of `DsDriver.exec(fn, args)`: emits one `action` envelope `{ fn, args }`;
awaits the acknowledgement inside `try { ... } catch (e) { console.log(...) }`,
so a rejected emit is caught and the function falls through to return
`undefined`. It never rethrows. -/
def exec (t : Transport) (fn : String) (args : Payload) : MethodOutcome :=
  { sent := [⟨"action", fn, args⟩],
    result := match t fn args with
              | .ok r => .ok r
              | .error _ => .ok .pundef }

/-- Model of `DsDriver.addSnippet(name)`: no validation at all — it forwards straight
to `exec('add snippet', { name })`. -/
def addSnippet (t : Transport) (name : Prim) : MethodOutcome :=
  exec t "add snippet" [("name", name)]

/-- Model of `DsDriver.setData(name, data)`: throws `Error('Missing Snippet Name')`
when `typeof name !== 'string'`, else `exec('snippet set data', { name, data })`. -/
def setData (t : Transport) (name : Prim) (data : Prim) : MethodOutcome :=
  if jsTypeofIsString name then
    exec t "snippet set data" [("name", name), ("data", data)]
  else
    { sent := [], result := .error "Missing Snippet Name" }

/-- Model of `DsDriver.train(name)`: throws `Error('Missing Snippet Name')` when
`typeof name !== 'string'`, else `exec('snippet train', { name })`. -/
def train (t : Transport) (name : Prim) : MethodOutcome :=
  if jsTypeofIsString name then
    exec t "snippet train" [("name", name)]
  else
    { sent := [], result := .error "Missing Snippet Name" }

/-- Model of `DsDriver.samplerRunning()`: no arguments, `exec('sampler running')`
(JS passes no `args`, i.e. `undefined`; the envelope still carries `fn`).
Modelled with an empty payload object. -/
def samplerRunning (t : Transport) : MethodOutcome :=
  exec t "sampler running" []

/-- The driver's `getType` handler answers the broker's role query with the
literal `'client'` (dsNodeDriver.js line 37). -/
def driverGetTypeAnswer : String := "client"

/-! Module-level socket binding (dsNodeDriver.js lines 4 and 11-22).

`let socket;` is declared at module scope, and `constructor(port)` assigns
`socket = sio(this.addr)`. The instance stores no socket of its own. -/

/-- State of the driver module: the current value of the module-level `socket`
variable (the id of the connection it is bound to, if any), and a counter
handing out ids for connections `sio(addr)` creates. -/
structure ModuleState where
  socket : Option Nat
  nextConn : Nat
deriving DecidableEq, Repr

/-- Module state at load: `let socket;` leaves the variable unbound. -/
def moduleInit : ModuleState := ⟨none, 0⟩

/-- A `DsDriver` instance: the fields the constructor stores on `this`.
There is no socket field — the transport connection lives only in the
module-level variable. -/
structure DsDriverObj where
  addr : String
  connected : Bool
  snippetServerOnline : Bool
deriving DecidableEq, Repr

/-- Model of `new DsDriver(port)`: opens a fresh connection and rebinds the
module-level `socket` to it; returns the updated module state and the
constructed instance. -/
def constructDsDriver (m : ModuleState) (port : Nat) : ModuleState × DsDriverObj :=
  ({ socket := some m.nextConn, nextConn := m.nextConn + 1 },
   { addr := "http://localhost:" ++ toString port,
     connected := false, snippetServerOnline := false })

/-- The connection a method of instance `d` sends on: `exec` reads the
module-level `socket`, never anything on `this`, so the instance argument is
unused — exactly the source's behaviour. -/
def execTarget (m : ModuleState) (_d : DsDriverObj) : Option Nat :=
  m.socket

/-! Concurrent-call scenario machinery (for claim C7). -/

/-- Pair each callback token with the acknowledgement id the broker will
assign to it, starting from counter value `n` — the shape `pending` takes
after a burst of `action` events. -/
def tag (n : Nat) : List Nat → List (Nat × Nat)
  | [] => []
  | cb :: rest => (n, cb) :: tag (n + 1) rest

/-- A burst of `action` events from one client (`cid`), all with the same
`fn`/`args`, one per callback token in `cbs`, in order. -/
def sendEvents (cid : Nat) (fn : String) (args : Payload) (cbs : List Nat) : List BEvent :=
  cbs.map (fun cb => .action cid fn args cb)

/-- The outputs the broker produces while relaying such a burst: one log line
and one worker emission per call, with consecutive acknowledgement ids. -/
def sendOuts (w : Nat) (fn : String) (args : Payload) : Nat → List Nat → List Output
  | _, [] => []
  | n, _cb :: rest =>
      .logInfo "Relaying action" :: .toWorker w fn args n :: sendOuts w fn args (n + 1) rest

/-- The worker answering a set of pending calls in reverse order of their
creation: one `workerAck` per pending entry, last-created first, where
`res a` is the reply the worker produced for the call with acknowledgement
id `a`. -/
def revReplies (res : Nat → Prim) (pend : List (Nat × Nat)) : List BEvent :=
  pend.reverse.map (fun p => .workerAck p.1 (res p.1))

/-- The outputs the broker produces while delivering replies for the pending
entries `pend` in the order given: each entry's client callback is invoked
with exactly the reply produced for that entry's acknowledgement id. -/
def replyOuts (res : Nat → Prim) : List (Nat × Nat) → List Output
  | [] => []
  | p :: rest =>
      .logInfo "Relayed action returned" :: .callClientCb p.2 (res p.1) :: replyOuts res rest

/-! Concrete transports used by witnesses. -/

/-- A transport whose acknowledgement always fulfils with `null`. -/
def okTransport : Transport := fun _ _ => .ok .pnull

/-- A transport whose acknowledgement always rejects. -/
def failTransport : Transport := fun _ _ => .error "transport failure"

/-- A transport that answers a train call with a kernel-info string. -/
def kernelTransport : Transport := fun _ _ => .ok (.pstr "kernelInfo")

/-! Theorems settling the claims. -/

/-- Claim C1, as stated, is false: in the trace where client 1 connects,
answers `"client"`, and then issues a call while no worker is registered, the
broker produces no delivery to any client callback whatsoever — the call is
not resolved with `NoWorkerAvailable` (it is not resolved at all); only a
warning is logged. The `pending = []` conjunct confirms the call is also not
queued. -/
theorem C1_counterexample :
    (run brokerInit
      [.connect 1, .typeAnswer 1 "client", .action 1 "sampler running" [] 7]).2 =
      [.logInfo "connection", .emitGetType 1,
       .logWarn "Unable to process action. No snippet server connected"] ∧
    (run brokerInit
      [.connect 1, .typeAnswer 1 "client", .action 1 "sampler running" [] 7]).2.filter
      isClientDelivery = [] ∧
    (run brokerInit
      [.connect 1, .typeAnswer 1 "client", .action 1 "sampler running" [] 7]).1.pending
      = [] :=
  ⟨rfl, rfl, rfl⟩

/-- Claim C1 (amended): a client call routed while no worker connection is
registered is dropped, not resolved — the broker logs a warning diagnostic,
does not queue the call (state unchanged), and never invokes the calling
client's callback, so the caller's pending call is left unresolved. -/
theorem C1_noWorker_drops_call (s : BrokerState) (sid : Nat) (fn : String)
    (args : Payload) (cb : Nat) (h : s.snippetSocket = none) :
    step s (.action sid fn args cb) =
      (s, [.logWarn "Unable to process action. No snippet server connected"]) := by
  simp [step, h]

/-- Witness for C1: the amended behaviour at a concrete state and call. -/
theorem C1_noWorker_drops_call_witness :
    brokerInit.snippetSocket = none ∧
    step brokerInit (.action 1 "sampler running" [] 7) =
      (brokerInit, [.logWarn "Unable to process action. No snippet server connected"]) :=
  ⟨rfl, C1_noWorker_drops_call brokerInit 1 "sampler running" [] 7 rfl⟩

/-- Claim C2: over every event sequence from the initial state, at most one
connection holds the worker role; and whenever a connection answers the role
query with the worker literal while a worker is already registered, the broker
reports an error, the new connection is left unregistered, and the existing
registration (indeed the whole broker state) is unchanged. -/
theorem C2_single_worker_invariant :
    (∀ es : List BEvent, (workerHolders (run brokerInit es).1).length ≤ 1) ∧
    (∀ (s : BrokerState) (sid w : Nat), s.snippetSocket = some w →
      step s (.typeAnswer sid "server") =
        (s, [.logError "Server already connected. Disconnect other server first"])) := by
  constructor
  · intro es
    cases h : (run brokerInit es).1.snippetSocket <;> simp [workerHolders, h]
  · intro s sid w h
    simp [step, h]

/-- Witness for C2: invariant evaluated on a concrete trace, and the rejection
of a second worker at a concrete state. -/
theorem C2_single_worker_invariant_witness :
    (workerHolders (run brokerInit [BEvent.typeAnswer 5 "server"]).1).length ≤ 1 ∧
    step ⟨some 5, [], 0⟩ (.typeAnswer 6 "server") =
      (⟨some 5, [], 0⟩,
       [.logError "Server already connected. Disconnect other server first"]) :=
  ⟨C2_single_worker_invariant.1 [BEvent.typeAnswer 5 "server"],
   C2_single_worker_invariant.2 ⟨some 5, [], 0⟩ 6 5 rfl⟩

/-- Claim C3, as stated, is false: in the trace where a client and a worker
connect and the client issues two calls (so K = 2 calls are pending) and the
worker then disconnects, the broker delivers nothing to either client callback
— no `WorkerDisconnected` failure is produced — and both pending entries are
left behind. -/
theorem C3_counterexample :
    (run brokerInit
      [.connect 1, .typeAnswer 1 "client", .connect 2, .typeAnswer 2 "server",
       .action 1 "snippet train" [("name", .pstr "a")] 10,
       .action 1 "snippet predict" [("name", .pstr "a")] 11,
       .disconnect 2]).2.filter isClientDelivery = [] ∧
    (run brokerInit
      [.connect 1, .typeAnswer 1 "client", .connect 2, .typeAnswer 2 "server",
       .action 1 "snippet train" [("name", .pstr "a")] 10,
       .action 1 "snippet predict" [("name", .pstr "a")] 11,
       .disconnect 2]).1.pending = [(0, 10), (1, 11)] :=
  ⟨rfl, rfl⟩

/-- Claim C3 (amended): when the worker connection disconnects while calls are
pending, the broker only clears the worker slot and logs; none of the pending
calls is resolved (no failure is delivered to any originating client), and
every pending-call entry is left behind unchanged. -/
theorem C3_disconnect_leaves_pending (s : BrokerState) (sid : Nat)
    (h : s.snippetSocket = some sid) :
    step s (.disconnect sid) =
      ({ s with snippetSocket := none },
       [.logWarn "Snippet server disconnected", .logInfo "disconnect"]) := by
  simp [step, h]

/-- Witness for C3: the amended behaviour at a concrete state with two
pending calls. -/
theorem C3_disconnect_leaves_pending_witness :
    step ⟨some 2, [(0, 10), (1, 11)], 2⟩ (.disconnect 2) =
      (⟨none, [(0, 10), (1, 11)], 2⟩,
       [.logWarn "Snippet server disconnected", .logInfo "disconnect"]) :=
  C3_disconnect_leaves_pending ⟨some 2, [(0, 10), (1, 11)], 2⟩ 2 rfl

/-- Claim C5, as stated, is false: a connection answering the role query with
the literal string `"worker"` while no worker is registered is NOT registered
— the broker's `getType` callback only reacts to the literal `"server"`, so
the step leaves the state unchanged (worker slot still empty) and produces no
output at all. -/
theorem C5_counterexample :
    step brokerInit (.typeAnswer 1 "worker") = (brokerInit, []) ∧
    workerHolders (step brokerInit (.typeAnswer 1 "worker")).1 = [] :=
  ⟨rfl, rfl⟩

/-- Claim C5 (amended): the worker-role literal is `"server"`, not `"worker"`
— when a new connection answers the role query with `"server"` and no worker
is registered, the broker registers that connection as the worker; the
acknowledgement values actually used by the system are `"server"` (sent by the
worker) and `"client"` (sent by the client driver). -/
theorem C5_server_literal_registers (s : BrokerState) (sid : Nat)
    (h : s.snippetSocket = none) :
    step s (.typeAnswer sid "server") =
      ({ s with snippetSocket := some sid },
       [.logInfo "Design Snippets Server found"]) ∧
    driverGetTypeAnswer = "client" := by
  exact ⟨by simp [step, h], rfl⟩

/-- Witness for C5: registration of a concrete connection answering
`"server"` from the initial state. -/
theorem C5_server_literal_registers_witness :
    step brokerInit (.typeAnswer 2 "server") =
      (⟨some 2, [], 0⟩, [.logInfo "Design Snippets Server found"]) ∧
    driverGetTypeAnswer = "client" :=
  C5_server_literal_registers brokerInit 2 rfl

/-- Splitting a broker run at an append point. -/
theorem run_append (s : BrokerState) (es1 es2 : List BEvent) :
    run s (es1 ++ es2) =
      ((run (run s es1).1 es2).1, (run s es1).2 ++ (run (run s es1).1 es2).2) := by
  induction es1 generalizing s with
  | nil => simp [run]
  | cons e es ih => simp [run, ih]

/-- Running a burst of `action` events with a worker registered: each call is
relayed with a consecutive acknowledgement id, and the pending table grows by
the corresponding `tag` entries. -/
theorem run_sendEvents (cid : Nat) (fn : String) (args : Payload)
    (cbs : List Nat) (w : Nat) (p : List (Nat × Nat)) (n : Nat) :
    run ⟨some w, p, n⟩ (sendEvents cid fn args cbs) =
      (⟨some w, p ++ tag n cbs, n + cbs.length⟩, sendOuts w fn args n cbs) := by
  induction cbs generalizing p n with
  | nil => simp [run, sendEvents, tag, sendOuts]
  | cons cb rest ih =>
      simp only [sendEvents, List.map_cons] at ih ⊢
      simp only [run, step]
      rw [ih]
      simp [tag, sendOuts, List.append_assoc]
      omega

/-- Unfolding `tag` over an append of a final callback. -/
theorem tag_append_single (n : Nat) (cbs : List Nat) (cb : Nat) :
    tag n (cbs ++ [cb]) = tag n cbs ++ [(n + cbs.length, cb)] := by
  induction cbs generalizing n with
  | nil => simp [tag]
  | cons x rest ih =>
      simp [tag, ih]
      omega

/-- Acknowledgement ids handed out by `tag n` lie in `[n, n + length)`. -/
theorem tag_key_bounds (n : Nat) (cbs : List Nat) :
    ∀ q ∈ tag n cbs, n ≤ q.1 ∧ q.1 < n + cbs.length := by
  induction cbs generalizing n with
  | nil => simp [tag]
  | cons x rest ih =>
      intro q hq
      rcases List.mem_cons.mp hq with h | h
      · subst h
        simp
      · have := ih (n + 1) q h
        simp only [List.length_cons]
        omega

/-- Lemma: `find?` locates the final entry when no earlier entry carries its key. -/
theorem find?_append_last (l : List (Nat × Nat)) (k cb : Nat)
    (h : ∀ q ∈ l, q.1 ≠ k) :
    (l ++ [(k, cb)]).find? (fun p => p.1 = k) = some (k, cb) := by
  induction l with
  | nil => simp
  | cons x rest ih =>
      have hx : x.1 ≠ k := h x (by simp)
      rw [List.cons_append, List.find?_cons_of_neg]
      · exact ih (fun q hq => h q (List.mem_cons_of_mem x hq))
      · simpa using hx

/-- Filtering away the final entry's key removes only it when no earlier
entry carries that key. -/
theorem filter_append_last (l : List (Nat × Nat)) (k cb : Nat)
    (h : ∀ q ∈ l, q.1 ≠ k) :
    (l ++ [(k, cb)]).filter (fun q => q.1 ≠ k) = l := by
  induction l with
  | nil => simp
  | cons x rest ih =>
      have hx : x.1 ≠ k := h x (by simp)
      rw [List.cons_append, List.filter_cons_of_pos]
      · rw [ih (fun q hq => h q (List.mem_cons_of_mem x hq))]
      · simpa using hx

/-- Delivering replies for tagged pending calls in reverse creation order:
every entry is found, resolved to its own callback with its own reply, and
removed; nothing is left pending. -/
theorem run_revReplies (res : Nat → Prim) (w n m : Nat) (cbs : List Nat) :
    run ⟨some w, tag n cbs, m⟩ (revReplies res (tag n cbs)) =
      (⟨some w, [], m⟩, replyOuts res (tag n cbs).reverse) := by
  induction cbs using List.reverseRecOn with
  | nil => simp [run, tag, revReplies, replyOuts]
  | append_singleton rest cb ih =>
      have hne : ∀ q ∈ tag n rest, q.1 ≠ n + rest.length := by
        intro q hq
        have := tag_key_bounds n rest q hq
        omega
      rw [tag_append_single]
      simp only [revReplies, List.reverse_append, List.reverse_cons,
        List.reverse_nil, List.nil_append, List.singleton_append, List.map_cons]
      simp only [run, step]
      rw [find?_append_last _ _ _ hne, filter_append_last _ _ _ hne]
      simp only []
      simp only [revReplies] at ih
      rw [ih]
      simp [replyOuts, List.reverse_append]

/-- Every pending entry's callback receives its own reply somewhere in the
reply outputs. -/
theorem mem_replyOuts (res : Nat → Prim) (pend : List (Nat × Nat))
    (q : Nat × Nat) (hq : q ∈ pend) :
    Output.callClientCb q.2 (res q.1) ∈ replyOuts res pend := by
  induction pend with
  | nil => cases hq
  | cons x rest ih =>
      rcases List.mem_cons.mp hq with h | h
      · subst h
        simp [replyOuts]
      · simp [replyOuts, ih h]

/-- The `i`-th call of a burst is tagged with acknowledgement id `n + i`. -/
theorem tag_get_mem (n : Nat) (cbs : List Nat) (i : Nat) (hi : i < cbs.length) :
    (n + i, cbs.get ⟨i, hi⟩) ∈ tag n cbs := by
  induction cbs generalizing n i with
  | nil => cases hi
  | cons x rest ih =>
      cases i with
      | zero => simp [tag]
      | succ j =>
          have hj : j < rest.length := by
            simpa using hi
          have hmem := ih (n + 1) j hj
          have harith : n + (j + 1) = (n + 1) + j := by omega
          rw [harith]
          exact List.mem_cons_of_mem _ hmem

/-- No single broker handler ever produces a presence broadcast. -/
theorem step_no_presence (s : BrokerState) (e : BEvent) :
    ((step s e).2.filter isPresence) = [] := by
  cases e <;> simp only [step] <;>
    repeat' first
      | split
      | rfl

/-- No event sequence makes the broker produce a presence broadcast. -/
theorem run_no_presence (s : BrokerState) (es : List BEvent) :
    ((run s es).2.filter isPresence) = [] := by
  induction es generalizing s with
  | nil => rfl
  | cons e es ih =>
      simp [run, List.filter_append, step_no_presence, ih]

/-- Claim C4 is refuted by the code: over every event sequence — in
particular the one where a client is connected and a worker then attaches,
and the one where the worker later detaches — the broker emits no presence
event at all. No `"server ok"` is delivered on attach and no `"no server"` on
detach, contradicting the exactly-once delivery the claim (and the driver's
own listeners for these events) requires. -/
theorem C4_broker_emits_no_presence (es : List BEvent) :
    ((run brokerInit es).2.filter isPresence) = [] :=
  run_no_presence brokerInit es

/-- Claim C6, as stated, is false: `addSnippet("")` performs no local
validation — it sends the `action` envelope `{fn: 'add snippet',
args: {name: ''}}` on the transport and resolves normally with the
acknowledgement value; no exception is thrown and a message IS sent. -/
theorem C6_counterexample :
    addSnippet okTransport (.pstr "") =
      { sent := [⟨"action", "add snippet", [("name", .pstr "")]⟩],
        result := .ok .pnull } :=
  rfl

/-- Claim C6 (amended): the typed layer does not validate name contents.
`addSnippet` performs no local validation at all and always sends its
envelope, whatever `name` is; the methods that do validate (`train`,
`setData`, ...) check only `typeof name === 'string'`, throwing
`Error('Missing Snippet Name')` synchronously with no message sent when
`name` is not a string — and the empty string passes that check, so
`train("")` also sends. -/
theorem C6_no_empty_name_validation (t : Transport) (name : Prim) (n : Int) :
    (addSnippet t name).sent = [⟨"action", "add snippet", [("name", name)]⟩] ∧
    (train t (.pstr "")).sent =
      [⟨"action", "snippet train", [("name", .pstr "")]⟩] ∧
    train t (.pnum n) = { sent := [], result := .error "Missing Snippet Name" } ∧
    setData t (.pnum n) .pnull =
      { sent := [], result := .error "Missing Snippet Name" } :=
  ⟨rfl, rfl, rfl, rfl⟩

/-- Claim C8, as stated, is false: when the broker relays a `train("foo")`
call, the worker-bound emission is an event named `"snippet train"` carrying
`{name: "foo"}` — the broker unwraps the `action` envelope, so the worker does
not receive an event named `action`. -/
theorem C8_counterexample :
    (step ⟨some 2, [], 0⟩
      (.action 1 "snippet train" [("name", .pstr "foo")] 5)).2 =
      [.logInfo "Relaying action",
       .toWorker 2 "snippet train" [("name", .pstr "foo")] 0] ∧
    "snippet train" ≠ "action" :=
  ⟨rfl, by decide⟩

/-- Claim C8 (amended): when a client with a registered worker calls
`train("foo")`, the driver sends the envelope named `action` with
`fn: "snippet train"` and `args: {name: "foo"}` to the broker; the broker
unwraps the envelope, so the worker receives an event named `"snippet train"`
carrying `{name: "foo"}`; and the worker's acknowledgement value `r` is
relayed verbatim, uninterpreted by the broker, to the client callback and
returned as the result of the client's `train` call. -/
theorem C8_train_relay (w cid cb : Nat) (r : Prim) (t : Transport)
    (h : t "snippet train" [("name", .pstr "foo")] = .ok r) :
    (train t (.pstr "foo")).sent =
      [⟨"action", "snippet train", [("name", .pstr "foo")]⟩] ∧
    (train t (.pstr "foo")).result = .ok r ∧
    run ⟨some w, [], 0⟩
      [.action cid "snippet train" [("name", .pstr "foo")] cb, .workerAck 0 r] =
      (⟨some w, [], 1⟩,
       [.logInfo "Relaying action",
        .toWorker w "snippet train" [("name", .pstr "foo")] 0,
        .logInfo "Relayed action returned",
        .callClientCb cb r]) := by
  refine ⟨rfl, ?_, rfl⟩
  simp [train, exec, jsTypeofIsString, h]

/-- Witness for C8: the amended relay behaviour at a concrete worker,
client callback and acknowledgement value. -/
theorem C8_train_relay_witness :
    (train kernelTransport (.pstr "foo")).sent =
      [⟨"action", "snippet train", [("name", .pstr "foo")]⟩] ∧
    (train kernelTransport (.pstr "foo")).result = .ok (.pstr "kernelInfo") ∧
    run ⟨some 2, [], 0⟩
      [.action 1 "snippet train" [("name", .pstr "foo")] 5,
       .workerAck 0 (.pstr "kernelInfo")] =
      (⟨some 2, [], 1⟩,
       [.logInfo "Relaying action",
        .toWorker 2 "snippet train" [("name", .pstr "foo")] 0,
        .logInfo "Relayed action returned",
        .callClientCb 5 (.pstr "kernelInfo")]) :=
  C8_train_relay 2 1 5 (.pstr "kernelInfo") kernelTransport rfl

/-- Claim C7: N concurrent calls from one client (callback tokens `cbs`, in
order), answered by the worker in reverse order with `res a` the reply
produced for the call holding acknowledgement id `a`: the run resolves every
call, leaves nothing pending, and its outputs deliver to each call's own
callback exactly the reply produced for that call — in particular the `i`-th
call issued receives `res i` on its own callback, whatever the other calls'
callbacks and replies are. Correlation is per call (acknowledgement id), never
per connection. -/
theorem C7_per_call_correlation (w cid : Nat) (fn : String) (args : Payload)
    (cbs : List Nat) (res : Nat → Prim) :
    run ⟨some w, [], 0⟩
        (sendEvents cid fn args cbs ++ revReplies res (tag 0 cbs)) =
      (⟨some w, [], cbs.length⟩,
       sendOuts w fn args 0 cbs ++ replyOuts res (tag 0 cbs).reverse) ∧
    ∀ i, (hi : i < cbs.length) →
      Output.callClientCb (cbs.get ⟨i, hi⟩) (res i) ∈
        (run ⟨some w, [], 0⟩
          (sendEvents cid fn args cbs ++ revReplies res (tag 0 cbs))).2 := by
  have hmain :
      run ⟨some w, [], 0⟩
          (sendEvents cid fn args cbs ++ revReplies res (tag 0 cbs)) =
        (⟨some w, [], cbs.length⟩,
         sendOuts w fn args 0 cbs ++ replyOuts res (tag 0 cbs).reverse) := by
    rw [run_append, run_sendEvents]
    simp only [List.nil_append, Nat.zero_add]
    rw [run_revReplies]
  refine ⟨hmain, ?_⟩
  intro i hi
  rw [hmain]
  have hmem : (i, cbs.get ⟨i, hi⟩) ∈ tag 0 cbs := by
    have := tag_get_mem 0 cbs i hi
    simpa using this
  have hrev : (i, cbs.get ⟨i, hi⟩) ∈ (tag 0 cbs).reverse :=
    List.mem_reverse.mpr hmem
  have hout := mem_replyOuts res ((tag 0 cbs).reverse) (i, cbs.get ⟨i, hi⟩) hrev
  exact List.mem_append_right _ hout

/-- Witness for C7: three calls with callbacks 10, 11, 12 and replies
`res a = a + 100`, answered in reverse; the second call's callback 11
receives reply 101. -/
theorem C7_per_call_correlation_witness :
    Output.callClientCb 11 (.pnum 101) ∈
      (run ⟨some 9, [], 0⟩
        (sendEvents 1 "snippet predict" [("name", .pstr "a")] [10, 11, 12] ++
         revReplies (fun a => .pnum (a + 100)) (tag 0 [10, 11, 12]))).2 :=
  (C7_per_call_correlation 9 1 "snippet predict" [("name", .pstr "a")]
    [10, 11, 12] (fun a => .pnum (a + 100))).2 1 (by decide)

/-- Claim C9: when the transport acknowledgement for an `exec` call rejects,
`exec` catches the error (logging it) and resolves normally with `undefined`;
consequently every convenience method built on `exec` whose validation passes
also resolves with `undefined` rather than propagating the rejection. -/
theorem C9_exec_catches_rejection (t : Transport) (e : String)
    (h : ∀ fn args, t fn args = .error e) (fn : String) (args : Payload)
    (name : Prim) (s : String) :
    exec t fn args = { sent := [⟨"action", fn, args⟩], result := .ok .pundef } ∧
    (addSnippet t name).result = .ok .pundef ∧
    (train t (.pstr s)).result = .ok .pundef ∧
    (samplerRunning t).result = .ok .pundef := by
  refine ⟨?_, ?_, ?_, ?_⟩ <;>
    simp [exec, addSnippet, train, samplerRunning, jsTypeofIsString, h]

/-- Witness for C9: a concrete always-rejecting transport. -/
theorem C9_exec_catches_rejection_witness :
    exec failTransport "snippet train" [("name", .pstr "x")] =
      { sent := [⟨"action", "snippet train", [("name", .pstr "x")]⟩],
        result := .ok .pundef } ∧
    (addSnippet failTransport (.pstr "x")).result = .ok .pundef ∧
    (train failTransport (.pstr "x")).result = .ok .pundef ∧
    (samplerRunning failTransport).result = .ok .pundef :=
  C9_exec_catches_rejection failTransport "transport failure"
    (fun _ _ => rfl) "snippet train" [("name", .pstr "x")] (.pstr "x") "x"

/-- Claim C10: the driver's transport connection lives in a single
module-level variable, not on the instance; constructing a second `DsDriver`
rebinds that variable, so the first instance's methods thereafter operate on
the second instance's (most recently created) connection — and, structurally,
the connection a method uses never depends on the instance it is called on. -/
theorem C10_second_driver_rebinds_socket (m0 m1 m2 : ModuleState)
    (d1 d2 : DsDriverObj) (p1 p2 : Nat)
    (h1 : constructDsDriver m0 p1 = (m1, d1))
    (h2 : constructDsDriver m1 p2 = (m2, d2)) :
    execTarget m2 d1 = some m1.nextConn ∧
    execTarget m2 d1 = execTarget m2 d2 ∧
    m1.socket = some m0.nextConn ∧
    execTarget m2 d1 ≠ some m0.nextConn := by
  have e1 : m1 = { socket := some m0.nextConn, nextConn := m0.nextConn + 1 } := by
    have := congrArg Prod.fst h1
    simpa [constructDsDriver] using this.symm
  have e2 : m2 = { socket := some m1.nextConn, nextConn := m1.nextConn + 1 } := by
    have := congrArg Prod.fst h2
    simpa [constructDsDriver] using this.symm
  subst e1
  subst e2
  refine ⟨rfl, rfl, rfl, ?_⟩
  simp [execTarget]

/-- Witness for C10: two drivers constructed from the freshly loaded module;
the first instance's methods target connection 1 (the second driver's), not
connection 0 (its own). -/
theorem C10_second_driver_rebinds_socket_witness :
    execTarget (constructDsDriver (constructDsDriver moduleInit 5234).1 5234).1
        (constructDsDriver moduleInit 5234).2 =
      some (constructDsDriver moduleInit 5234).1.nextConn ∧
    execTarget (constructDsDriver (constructDsDriver moduleInit 5234).1 5234).1
        (constructDsDriver moduleInit 5234).2 =
      execTarget (constructDsDriver (constructDsDriver moduleInit 5234).1 5234).1
        (constructDsDriver (constructDsDriver moduleInit 5234).1 5234).2 ∧
    (constructDsDriver moduleInit 5234).1.socket = some moduleInit.nextConn ∧
    execTarget (constructDsDriver (constructDsDriver moduleInit 5234).1 5234).1
        (constructDsDriver moduleInit 5234).2 ≠ some moduleInit.nextConn :=
  C10_second_driver_rebinds_socket moduleInit
    (constructDsDriver moduleInit 5234).1
    (constructDsDriver (constructDsDriver moduleInit 5234).1 5234).1
    (constructDsDriver moduleInit 5234).2
    (constructDsDriver (constructDsDriver moduleInit 5234).1 5234).2
    5234 5234 rfl rfl

end DesignSnippets
